import Mathlib

set_option linter.unusedVariables false

/-!
Verification of the chitchat repository: a shallow embedding of the
conversation-session logic (src/chat.py), the persistence layer (src/db.py)
and the session manager / reconstruction algorithm (src/main.py), together
with theorems settling the specification's claims about them.

Token counting (tiktoken) is an external capability; it is modelled as an
arbitrary function `count : String → String → Nat` (text, model ↦ token
count), quantified over in every general theorem.
-/

/-- Token-counter capability: `count text model` is the token count of
`text` under the tokenizer resolved for `model` (src/chat.py `count_tokens`,
memoization is observationally irrelevant). -/
abbrev CountFn := String → String → Nat

/-- One completed prompt/response turn, src/chat.py `_Request` (lines 23-58).
The source declares `prompt`/`response`/`timestamp` as `None | str` with
`None` defaults, but every `_Request` the `Chat` methods construct carries
strings (a `None` would make `count_tokens` raise in `length`); they are
embedded as `String`.  The four sampling parameters are genuinely optional. -/
structure ChatRequest where
  model : String
  prompt : String
  response : String
  timestamp : String
  temperature : Option ℚ
  top_p : Option ℚ
  presence_penalty : Option ℚ
  frequency_penalty : Option ℚ
deriving Repr, DecidableEq

/-- src/chat.py lines 54-58: `_Request.length`.  The source rebinds the local
`model` to `model or self.model` and then ignores it, counting both the
prompt and the response against the request's own stored `self.model`;
the `model` argument is therefore unused here exactly as in the source. -/
def ChatRequest.length (count : CountFn) (r : ChatRequest) (model : Option String) : Nat :=
  count r.prompt r.model + count r.response r.model

/-- Mutable state of a src/chat.py `Chat` object (lines 68-83). -/
structure Chat where
  name : String
  system_message : String
  reserve_tokens : Nat
  history : List ChatRequest
  context : List ChatRequest
deriving Repr, DecidableEq

/-- Token cost of a context list: `sum([req.length(model) for req in ctx])`,
the `in_context` summand of src/chat.py lines 156-159. -/
def contextCost (count : CountFn) (model : String) (ctx : List ChatRequest) : Nat :=
  (ctx.map fun req => req.length count (some model)).sum

/-- src/chat.py lines 156-159: `Chat.tokens_used`. -/
def Chat.tokens_used (count : CountFn) (s : Chat) (model : String) : Nat :=
  count s.system_message model + contextCost count model s.context

/-- src/chat.py lines 108-110: the context-trimming loop at the top of
`Chat.create_completion`:

  while self.tokens_used(model) + self.reserve_tokens > MAX_TOKENS:
      self._context.pop(0)

The loop condition does not involve the new prompt and there is no
emptiness check; `pop(0)` on an empty list raises `IndexError`, modelled as
`.error ()` (at that point the context has been fully emptied). -/
def trimLoop (count : CountFn) (max_tokens reserve : Nat) (sys model : String) :
    List ChatRequest → Except Unit (List ChatRequest)
  | [] =>
    if max_tokens < count sys model + contextCost count model [] + reserve then
      .error ()
    else
      .ok []
  | r :: rest =>
    if max_tokens < count sys model + contextCost count model (r :: rest) + reserve then
      trimLoop count max_tokens reserve sys model rest
    else
      .ok (r :: rest)

/-- One role-tagged outbound message, an element of the `messages` parameter
built in src/chat.py lines 112-114 and 148-154. -/
structure Msg where
  role : String
  content : String
deriving Repr, DecidableEq

/-- src/chat.py lines 148-154: `Chat._generate_messages`, a loop appending,
for each context entry, an `assistant`-tagged message holding the entry's
prompt and an `assistant`-tagged message holding its response. -/
def Chat.generate_messages (ctx : List ChatRequest) : List Msg :=
  ctx.foldl
    (fun msgs req =>
      msgs ++ [Msg.mk "assistant" req.prompt, Msg.mk "assistant" req.response])
    []

/-- One run of the streaming completion provider
(`openai.ChatCompletion.create(..., stream=True)`): the chunks it delivers
before terminating (each chunk's optional `delta["content"]`; `none` models a
delta missing `content`, which src/chat.py lines 130-134 skips), and whether
the stream then raises (`fails = true`) instead of ending normally. -/
structure ProviderRun where
  chunks : List (Option String)
  fails : Bool
deriving Repr, DecidableEq

/-- Observable outcome of one `Chat.create_completion` call: the session
state after the call, the outbound message list handed to the provider
(`[]` when the trim step raised before the list was built), and either the
list of yielded content fragments or an error (trim `IndexError` or provider
failure propagating to the caller). -/
structure CompletionOutcome where
  chat : Chat
  sent : List Msg
  result : Except Unit (List String)
deriving Repr

/-- src/chat.py lines 99-146: `Chat.create_completion`, with the provider's
behaviour for this call passed in as `provider` and the wall clock passed in
as `now` (the timestamp the source takes from `datetime.datetime.now()`).
The steps in source order: trim the context in place (lines 108-110), build
the outbound messages (112-114), stream the provider's chunks, skipping
deltas without content and collecting the rest (122-136), and only when the
stream ends without raising, append one new `_Request` to both history and
context (138-146). -/
def Chat.create_completion (count : CountFn) (max_tokens : Nat) (now : String)
    (prompt model : String)
    (temperature top_p presence_penalty frequency_penalty : Option ℚ)
    (provider : ProviderRun) (s : Chat) : CompletionOutcome :=
  match trimLoop count max_tokens s.reserve_tokens s.system_message model s.context with
  | .error _ => ⟨{ s with context := [] }, [], .error ()⟩
  | .ok ctx' =>
    let trimmed : Chat := { s with context := ctx' }
    let messages : List Msg :=
      Msg.mk "system" s.system_message ::
        (Chat.generate_messages ctx' ++ [Msg.mk "user" prompt])
    let delivered : List String := provider.chunks.filterMap id
    if provider.fails then
      ⟨trimmed, messages, .error ()⟩
    else
      let request : ChatRequest :=
        ⟨model, prompt, String.join delivered, now,
          temperature, top_p, presence_penalty, frequency_penalty⟩
      ⟨{ trimmed with
          history := trimmed.history ++ [request],
          context := ctx' ++ [request] },
        messages, .ok delivered⟩

/-- Concrete token counter for the concrete scenarios: each character is one
token, independent of the model. -/
def countLen : CountFn := fun text _ => text.length

/-- A context entry costing 20 tokens under `countLen` (10-character prompt
and 10-character response). -/
def r20a : ChatRequest :=
  ⟨"gpt-3.5-turbo", "0123456789", "0123456789", "t1", none, none, none, none⟩

/-- A second context entry costing 20 tokens under `countLen`. -/
def r20b : ChatRequest :=
  ⟨"gpt-3.5-turbo", "9876543210", "9876543210", "t2", none, none, none, none⟩

/-- Chat with empty system message, reserve 5 and empty history/context,
used to instantiate hypotheses of general theorems at a concrete input. -/
def chatW : Chat := ⟨"w", "", 5, [], []⟩

/-- Chat whose history and context both hold the two 20-token entries, with
reserve 5 and empty system message. -/
def chat2 : Chat := ⟨"w", "", 5, [r20a, r20b], [r20a, r20b]⟩

/-- core/src core.py lines 28-63: `Request`, the persistence-layer turn
value.  Unlike the in-session `_Request`, `prompt`/`response`/`timestamp`
stay genuinely optional here: reconstruction builds them from nullable
left-join columns (src/main.py lines 332-341). -/
structure Request where
  model : String
  prompt : Option String
  response : Option String
  timestamp : Option String
  temperature : Option ℚ
  top_p : Option ℚ
  presence_penalty : Option ℚ
  frequency_penalty : Option ℚ
deriving Repr, DecidableEq

/-- A row of the `Chat` table (src/db.py lines 6-11). -/
structure ChatRow where
  id : Nat
  title : String
  system_message : String
  date_started : String
deriving Repr, DecidableEq

/-- A row of the `Request` table (src/db.py lines 13-23). -/
structure RequestRow where
  id : Nat
  chat_id : Nat
  model : String
  timestamp : String
  temperature : Option ℚ
  top_p : Option ℚ
  presence_penalty : Option ℚ
  frequency_penalty : Option ℚ
deriving Repr, DecidableEq

/-- A row of the `Message` table (src/db.py lines 25-31). -/
structure MessageRow where
  id : Nat
  request_id : Nat
  role : String
  content : String
deriving Repr, DecidableEq

/-- The sqlite database state: the three tables in insertion (rowid) order
plus the next AUTOINCREMENT value of each primary key. -/
structure DB where
  chats : List ChatRow
  requests : List RequestRow
  messages : List MessageRow
  next_chat_id : Nat
  next_request_id : Nat
  next_message_id : Nat
deriving Repr, DecidableEq

/-- A freshly created database (sqlite AUTOINCREMENT ids start at 1). -/
def emptyDB : DB := ⟨[], [], [], 1, 1, 1⟩

/-- The in-memory data of a session as far as persistence and reconstruction
are concerned: the `title`/`system_message`/`date_started` fields read by
`save_chat`, plus the ordered `history` (src/core.py `BaseChat`; also the
per-chat `chat_data` dictionary built by src/main.py lines 315-342). -/
structure ChatData where
  title : String
  system_message : String
  date_started : String
  history : List Request
deriving Repr, DecidableEq

/-- src/db.py lines 55-61: `Manager.save_chat` inserts one `Chat` row and
returns the generated rowid. -/
def save_chat (db : DB) (chat : ChatData) : DB × Nat :=
  ({ db with
      chats := db.chats ++
        [⟨db.next_chat_id, chat.title, chat.system_message, chat.date_started⟩],
      next_chat_id := db.next_chat_id + 1 },
    db.next_chat_id)

/-- src/db.py lines 63-102: `Manager.save_request` inserts one `Request` row
and then two `Message` rows (role `user` holding the prompt, role
`assistant` holding the response), as one transaction.  `none` models the
transaction failing with `IntegrityError`: a NULL in a NOT NULL column
(`Request.timestamp`, `Message.content`) or, with `PRAGMA foreign_keys=ON`,
a `chat_id` that matches no `Chat` row. -/
def save_request (db : DB) (chat_id : Nat) (req : Request) : Option DB :=
  if db.chats.any (fun c => c.id == chat_id) then
    match req.timestamp, req.prompt, req.response with
    | some ts, some p, some r =>
      some { db with
        requests := db.requests ++
          [⟨db.next_request_id, chat_id, req.model, ts,
            req.temperature, req.top_p, req.presence_penalty, req.frequency_penalty⟩],
        messages := db.messages ++
          [⟨db.next_message_id, db.next_request_id, "user", p⟩,
            ⟨db.next_message_id + 1, db.next_request_id, "assistant", r⟩],
        next_request_id := db.next_request_id + 1,
        next_message_id := db.next_message_id + 2 }
    | _, _, _ => none
  else none

/-- Persisting a session's history: one `save_request` per history entry, in
order (the per-completion saves of src/main.py line 103, replayed over a
whole history). -/
def saveAll (db : DB) (chat_id : Nat) : List Request → Option DB
  | [] => some db
  | r :: rest => (save_request db chat_id r).bind fun db' => saveAll db' chat_id rest

/-- LEFT JOIN semantics for one outer row: an empty list of matches yields a
single NULL match, otherwise each match yields a row. -/
def ljoinRows {α : Type} (found : List α) : List (Option α) :=
  match found with
  | [] => [none]
  | ms => ms.map some

/-- The row set of the query in src/db.py lines 130-145: `Chat` LEFT JOIN
`Request` ON `Chat.id = Request.chat_id`, LEFT JOIN the role-filtered
`Message` subselects ON `Request.id = Message.request_id`.  Tables are
scanned in rowid (insertion) order, as sqlite's nested-loop join does for
this unindexed, ORDER-BY-free query; when the `Request` side is NULL the
message join conditions are NULL, so both content columns are NULL. -/
def joinedRows (db : DB) : List (ChatRow × Option RequestRow × Option String × Option String) :=
  db.chats.flatMap fun c =>
    (ljoinRows (db.requests.filter fun r => r.chat_id == c.id)).flatMap fun r? =>
      match r? with
      | none => [(c, none, none, none)]
      | some r =>
        (ljoinRows ((db.messages.filter fun m =>
            m.role == "user" && m.request_id == r.id).map fun m => m.content)).flatMap fun p? =>
          (ljoinRows ((db.messages.filter fun m =>
              m.role == "assistant" && m.request_id == r.id).map fun m => m.content)).map fun q? =>
            (c, some r, p?, q?)

/-- src/db.py lines 126-146: `Manager.list_messages_simple`, returning
`(chat_id, title, system_message, date_started, model, prompt, response)`
tuples. -/
def list_messages_simple (db : DB) :
    List (Nat × String × String × String × Option String × Option String × Option String) :=
  (joinedRows db).map fun row =>
    (row.1.id, row.1.title, row.1.system_message, row.1.date_started,
      (row.2.1).map fun r => r.model, row.2.2.1, row.2.2.2)

/-- A row of the full-history query as consumed by src/main.py lines
319-341. -/
structure HistRow where
  chat_id : Nat
  title : String
  system_message : String
  date_started : String
  model : Option String
  prompt : Option String
  response : Option String
  timestamp : Option String
  temperature : Option ℚ
  top_p : Option ℚ
  presence_penalty : Option ℚ
  frequency_penalty : Option ℚ
deriving Repr, DecidableEq

/-- Modelled from the spec: `db.fetch_full_history` is called by
src/main.py line 319 but not defined in src/db.py (only its 7-column
precursor `list_messages_simple` is).  Per spec §4.3 it performs the same
left join and additionally exposes the `Request` row's timestamp and four
sampling-parameter columns, one row per `(chat, request)` pair and one
all-NULL-request row for a chat with no requests. -/
def fetch_full_history (db : DB) : List HistRow :=
  (joinedRows db).map fun row =>
    ⟨row.1.id, row.1.title, row.1.system_message, row.1.date_started,
      (row.2.1).map (fun r => r.model), row.2.2.1, row.2.2.2,
      (row.2.1).map (fun r => r.timestamp),
      (row.2.1).bind (fun r => r.temperature),
      (row.2.1).bind (fun r => r.top_p),
      (row.2.1).bind (fun r => r.presence_penalty),
      (row.2.1).bind (fun r => r.frequency_penalty)⟩

/-- One iteration of the row loop of src/main.py lines 319-342:
`chats_map.setdefault(chat_id, fresh chat_data)` (Python dicts keep
insertion order, modelled as an association list extended at the end), then,
when the row's `model` is not NULL, append a reconstructed `Request` to that
chat's history. -/
def rebuildStep (m : List (Nat × ChatData)) (row : HistRow) : List (Nat × ChatData) :=
  let m' :=
    if m.any (fun p => p.1 == row.chat_id) then m
    else m ++ [(row.chat_id, ⟨row.title, row.system_message, row.date_started, []⟩)]
  match row.model with
  | none => m'
  | some mdl =>
    m'.map fun p =>
      if p.1 == row.chat_id then
        (p.1, { p.2 with history := p.2.history ++
          [⟨mdl, row.prompt, row.response, row.timestamp,
            row.temperature, row.top_p, row.presence_penalty, row.frequency_penalty⟩] })
      else p

/-- src/main.py lines 312-342: `MainWindow._rebuild_chats`, the
reconstruction algorithm, as the map it builds from the query rows (the
final `Chat.from_data` call per entry only wraps this data — spec §4.2
`reconstruct` restores a session with exactly the given ordered history). -/
def rebuild_chats (rows : List HistRow) : List (Nat × ChatData) :=
  rows.foldl rebuildStep []

/-- Closed form of the `Request` rows created by saving a history whose
entries carry ids `rid, rid+1, ...` for chat `cid` (proof scaffolding for
the round-trip theorems, not itself an embedding of source code). -/
def savedRequestRows (cid : Nat) : Nat → List Request → List RequestRow
  | _, [] => []
  | rid, r :: rest =>
    ⟨rid, cid, r.model, r.timestamp.getD "", r.temperature, r.top_p,
      r.presence_penalty, r.frequency_penalty⟩ :: savedRequestRows cid (rid + 1) rest

/-- Closed form of the `Message` rows created by saving a history: for the
entry with request id `rid`, a `user` row holding the prompt and an
`assistant` row holding the response (proof scaffolding). -/
def savedMessageRows : Nat → Nat → List Request → List MessageRow
  | _, _, [] => []
  | rid, mid, r :: rest =>
    ⟨mid, rid, "user", r.prompt.getD ""⟩ ::
      ⟨mid + 1, rid, "assistant", r.response.getD ""⟩ ::
        savedMessageRows (rid + 1) (mid + 2) rest

/-- Closed form of the full-history rows of one chat with history `h`
(proof scaffolding). -/
def histRowsOf (c : ChatRow) (h : List Request) : List HistRow :=
  h.map fun r =>
    ⟨c.id, c.title, c.system_message, c.date_started, some r.model,
      r.prompt, r.response, r.timestamp,
      r.temperature, r.top_p, r.presence_penalty, r.frequency_penalty⟩

/-- The single all-NULL-request row of a chat with no requests. -/
def nullRowOf (c : ChatRow) : HistRow :=
  ⟨c.id, c.title, c.system_message, c.date_started,
    none, none, none, none, none, none, none, none⟩

/-- Closed form of the join tuples produced for the saved history of one
chat (proof scaffolding). -/
def savedJoinRows (c : ChatRow) (cid : Nat) :
    Nat → List Request → List (ChatRow × Option RequestRow × Option String × Option String)
  | _, [] => []
  | rid, r :: rest =>
    (c, some ⟨rid, cid, r.model, r.timestamp.getD "", r.temperature, r.top_p,
        r.presence_penalty, r.frequency_penalty⟩,
      some (r.prompt.getD ""), some (r.response.getD "")) ::
      savedJoinRows c cid (rid + 1) rest

/-- State of the `ChatManager` (src/main.py lines 22-113) relevant to
persistence: `_chats` (chat id ↦ session, as an insertion-ordered
association list), the session heap (`Chat` objects are identified by
tokens, so that the source's `is` identity tests become token equality),
the `_active_chat` and `_unsaved_chat` references, and the database. -/
structure ManagerState where
  chats : List (Nat × Nat)
  sessions : List (Nat × ChatData)
  active : Option Nat
  unsaved : Option Nat
  db : DB
deriving Repr, DecidableEq

/-- A session token not yet used in the heap. -/
def freshToken (s : ManagerState) : Nat :=
  (s.sessions.map fun p => p.1).foldr max 0 + 1

/-- src/main.py lines 53-57: the `active_chat` property; when `_active_chat`
is `None` it first runs `new_chat(title=DEFAULT_TITLE)`.  Modelled from the
spec for that branch (§4.4: "returns `active`, creating a new unsaved
session on first access if none exists"): `DEFAULT_TITLE` is imported from
core.py, which does not define it; a fresh session takes
`title or date_started` and `date_started = now` per src/core.py lines
67-73, with the default title modelled as the empty string. -/
def activeChat (now : String) (s : ManagerState) : ManagerState × Nat :=
  match s.active with
  | some tok => (s, tok)
  | none =>
    let tok := freshToken s
    ({ s with
        sessions := s.sessions ++ [(tok, ⟨now, "", now, []⟩)],
        active := some tok,
        unsaved := some tok }, tok)

/-- Python dict assignment `self._chats[chat_id] = chat` (src/main.py
line 96): replace in place if the key exists, else append. -/
def dictInsert (m : List (Nat × Nat)) (k v : Nat) : List (Nat × Nat) :=
  if m.any (fun p => p.1 == k) then
    m.map fun p => if p.1 == k then (k, v) else p
  else m ++ [(k, v)]

/-- src/main.py lines 108-113: `ChatManager._get_chat_id`, a linear identity
scan over `_chats`; `none` models the `ValueError` raised when the session
is not registered. -/
def get_chat_id (chats : List (Nat × Nat)) (tok : Nat) : Option Nat :=
  (chats.find? fun p => p.2 == tok).map fun p => p.1

/-- Look a session's state up in the heap. -/
def lookupSession (sessions : List (Nat × ChatData)) (tok : Nat) : Option ChatData :=
  (sessions.find? fun p => p.1 == tok).map fun p => p.2

/-- src/main.py lines 92-106: `ChatManager._on_streaming_finish`.  If the
active chat is (identically) the unsaved chat, `db.save_chat` it, register
it in `_chats` under the returned id and clear `_unsaved_chat`; otherwise
resolve its id with `_get_chat_id`.  Then `db.save_request(chat_id,
active_chat.last_request)` — `last_request` is the most recent history entry
(spec §4.2; src/core.py line 154 declares it abstract).  `none` models an
uncaught exception: a dangling session reference, `_get_chat_id`'s
`ValueError`, `last_request` being `None` on an empty history, or
`save_request` failing. -/
def on_streaming_finish (now : String) (s : ManagerState) : Option ManagerState :=
  let s₀ := (activeChat now s).1
  let tok := (activeChat now s).2
  match lookupSession s₀.sessions tok with
  | none => none
  | some data =>
    let step1 : Option (ManagerState × Nat) :=
      if s₀.unsaved == some tok then
        let saved := save_chat s₀.db data
        some ({ s₀ with
            db := saved.1,
            chats := dictInsert s₀.chats saved.2 tok,
            unsaved := none }, saved.2)
      else
        (get_chat_id s₀.chats tok).map fun cid => (s₀, cid)
    step1.bind fun sc =>
      match data.history.getLast? with
      | none => none
      | some req => (save_request sc.1.db sc.2 req).map fun db' => { sc.1 with db := db' }

/-- The only error the spec's `generate` is claimed to raise on a second
in-flight call.  No such error (and no `generating` flag) exists anywhere in
the source. -/
inductive ManagerError where
  | alreadyGenerating
deriving Repr, DecidableEq

/-- Generation-thread state of the `ChatManager`: the `_chat_thread`
attribute (token of the most recently created thread), the set of started
threads that have not yet finished (a started `QThread` keeps running even
after the attribute is reassigned), and a fresh-token counter. -/
structure GenState where
  chat_thread : Option Nat
  running : List Nat
  next_thread : Nat
deriving Repr, DecidableEq

/-- src/main.py lines 83-90: `ChatManager.create_completion` constructs a
new `ChatThread`, connects its signals and starts it — unconditionally.
There is no guard of any kind: no check of `_chat_thread`, no `generating`
flag, and `ManagerError.alreadyGenerating` is never produced. -/
def ChatManager.create_completion (g : GenState) : Except ManagerError GenState :=
  .ok { chat_thread := some g.next_thread,
        running := g.running ++ [g.next_thread],
        next_thread := g.next_thread + 1 }

/-- A persistence-layer request with all nullable fields present, for
concrete instantiations. -/
def reqW : Request :=
  ⟨"gpt-3.5-turbo", some "hello", some "world", some "2024-01-01", none, none, none, none⟩

/-- A session with a one-entry history, for concrete instantiations. -/
def sessW : ChatData := ⟨"my chat", "be nice", "2024-01-01", [reqW]⟩

/-- A manager state holding the unsaved active session `sessW` under token
7, with an empty database. -/
def mgrW : ManagerState := ⟨[], [(7, sessW)], some 7, some 7, emptyDB⟩

theorem contextCost_nil (count : CountFn) (model : String) :
    contextCost count model [] = 0 := rfl

theorem contextCost_cons (count : CountFn) (model : String) (r : ChatRequest)
    (l : List ChatRequest) :
    contextCost count model (r :: l) =
      r.length count (some model) + contextCost count model l := by
  simp [contextCost]

/-- Declarative characterization of the trimming loop: it returns the
context with its first `k` entries removed, for the least `k` that brings
the token usage within budget; the new prompt plays no part. -/
theorem trimLoop_ok_iff (count : CountFn) (max_tokens reserve : Nat) (sys model : String)
    (ctx : List ChatRequest) : ∀ ctx' : List ChatRequest,
    trimLoop count max_tokens reserve sys model ctx = .ok ctx' ↔
      ∃ k, k ≤ ctx.length ∧ ctx' = ctx.drop k ∧
        count sys model + contextCost count model (ctx.drop k) + reserve ≤ max_tokens ∧
        ∀ j, j < k →
          max_tokens < count sys model + contextCost count model (ctx.drop j) + reserve := by
  induction ctx with
  | nil =>
    intro ctx'
    unfold trimLoop
    by_cases h : max_tokens < count sys model + contextCost count model [] + reserve
    · rw [if_pos h]
      constructor
      · intro hc; exact Except.noConfusion hc
      · rintro ⟨k, hk, hctx', hok, hover⟩
        rw [List.length_nil, Nat.le_zero] at hk
        subst hk
        rw [List.drop_nil] at hok
        exact absurd hok (Nat.not_le.mpr h)
    · rw [if_neg h]
      constructor
      · intro hc
        obtain rfl : ([] : List ChatRequest) = ctx' := Except.ok.inj hc
        exact ⟨0, Nat.le_refl 0, by rw [List.drop_nil], by rw [List.drop_nil]; exact Nat.not_lt.mp h,
          fun j hj => absurd hj (Nat.not_lt_zero j)⟩
      · rintro ⟨k, hk, hctx', hok, hover⟩
        rw [List.drop_nil] at hctx'
        subst hctx'
        rfl
  | cons r rest ih =>
    intro ctx'
    unfold trimLoop
    by_cases h : max_tokens < count sys model + contextCost count model (r :: rest) + reserve
    · rw [if_pos h, ih ctx']
      constructor
      · rintro ⟨k, hk, hctx', hok, hover⟩
        refine ⟨k + 1, Nat.succ_le_succ hk, ?_, ?_, ?_⟩
        · rw [List.drop_succ_cons]; exact hctx'
        · rw [List.drop_succ_cons]; exact hok
        · intro j hj
          match j with
          | 0 => rw [List.drop_zero]; exact h
          | j' + 1 =>
            rw [List.drop_succ_cons]
            exact hover j' (Nat.lt_of_succ_lt_succ hj)
      · rintro ⟨k, hk, hctx', hok, hover⟩
        match k with
        | 0 =>
          rw [List.drop_zero] at hok
          exact absurd hok (Nat.not_le.mpr h)
        | k' + 1 =>
          refine ⟨k', Nat.le_of_succ_le_succ hk, ?_, ?_, ?_⟩
          · rw [List.drop_succ_cons] at hctx'; exact hctx'
          · rw [List.drop_succ_cons] at hok; exact hok
          · intro j hj
            have := hover (j + 1) (Nat.succ_lt_succ hj)
            rw [List.drop_succ_cons] at this
            exact this
    · rw [if_neg h]
      constructor
      · intro hc
        obtain rfl : r :: rest = ctx' := Except.ok.inj hc
        exact ⟨0, Nat.zero_le _, by rw [List.drop_zero], by rw [List.drop_zero]; exact Nat.not_lt.mp h,
          fun j hj => absurd hj (Nat.not_lt_zero j)⟩
      · rintro ⟨k, hk, hctx', hok, hover⟩
        match k with
        | 0 =>
          rw [List.drop_zero] at hctx'
          subst hctx'
          rfl
        | k' + 1 =>
          have := hover 0 (Nat.succ_pos k')
          rw [List.drop_zero] at this
          exact absurd this h

/-- A successfully trimmed context is a suffix of the original context. -/
theorem trimLoop_ok_suffix (count : CountFn) (max_tokens reserve : Nat) (sys model : String)
    (ctx ctx' : List ChatRequest)
    (h : trimLoop count max_tokens reserve sys model ctx = .ok ctx') :
    List.IsSuffix ctx' ctx := by
  obtain ⟨k, -, rfl, -, -⟩ :=
    (trimLoop_ok_iff count max_tokens reserve sys model ctx ctx').mp h
  exact List.drop_suffix k ctx

/-- The message-building loop, in closed form. -/
theorem generate_messages_eq (ctx : List ChatRequest) :
    Chat.generate_messages ctx =
      ctx.flatMap fun r => [Msg.mk "assistant" r.prompt, Msg.mk "assistant" r.response] := by
  have aux : ∀ (l : List ChatRequest) (acc : List Msg),
      l.foldl (fun msgs req =>
          msgs ++ [Msg.mk "assistant" req.prompt, Msg.mk "assistant" req.response]) acc
        = acc ++ l.flatMap fun r => [Msg.mk "assistant" r.prompt, Msg.mk "assistant" r.response] := by
    intro l
    induction l with
    | nil => intro acc; simp
    | cons r rest ihl => intro acc; simp [ihl]
  simpa using aux ctx []

/-- C1 (amended): the context-trimming step of `create_completion` removes
the earliest context entry, one at a time, exactly while
`tokens_used(model) + reserve_tokens > max_tokens` — the new prompt's token
count is not part of the loop condition, and there is no non-emptiness
guard — and in the concrete scenario (`max_tokens=50`, `reserve=5`, empty
system message, two context entries costing 20 tokens each) it removes
nothing, because `40 + 5 = 45 ≤ 50`: the context keeps both entries. -/
theorem trim_condition_C1 :
    (∀ (count : CountFn) (max_tokens reserve : Nat) (sys model : String)
        (ctx ctx' : List ChatRequest),
      trimLoop count max_tokens reserve sys model ctx = .ok ctx' ↔
        ∃ k, k ≤ ctx.length ∧ ctx' = ctx.drop k ∧
          count sys model + contextCost count model (ctx.drop k) + reserve ≤ max_tokens ∧
          ∀ j, j < k →
            max_tokens < count sys model + contextCost count model (ctx.drop j) + reserve) ∧
    trimLoop countLen 50 5 "" "gpt-3.5-turbo" [r20a, r20b] = .ok [r20a, r20b] :=
  ⟨fun count max_tokens reserve sys model ctx ctx' =>
    trimLoop_ok_iff count max_tokens reserve sys model ctx ctx', rfl⟩

/-- C1 counterexample: in the claimed concrete scenario (`max_tokens=50`,
`reserve=5`, empty system message, two 20-token context entries, 12-token
prompt) the code removes no entry — the loop condition does not count the
prompt — so the trimmed context has 2 entries, not exactly 1. -/
theorem trim_scenario_counter_C1 :
    countLen "" "gpt-3.5-turbo" = 0 ∧
    ChatRequest.length countLen r20a (some "gpt-3.5-turbo") = 20 ∧
    ChatRequest.length countLen r20b (some "gpt-3.5-turbo") = 20 ∧
    countLen "what is 2+2?" "gpt-3.5-turbo" = 12 ∧
    trimLoop countLen 50 5 "" "gpt-3.5-turbo" [r20a, r20b] = .ok [r20a, r20b] ∧
    [r20a, r20b].length ≠ 1 :=
  ⟨rfl, rfl, rfl, rfl, rfl, by decide⟩

/-- C5 (amended): the trimming step never removes elements from history —
a `create_completion` call either leaves the history unchanged or appends
exactly one new request — and on an empty context it is a no-op when the
token budget is already satisfied; but when the budget is still exceeded
with an empty context it fails (the source pops from the empty list,
raising `IndexError`) instead of being a no-op. -/
theorem trim_safety_C5 :
    (∀ (count : CountFn) (max_tokens reserve : Nat) (sys model : String),
      trimLoop count max_tokens reserve sys model [] =
        if max_tokens < count sys model + reserve then .error () else .ok []) ∧
    (∀ (count : CountFn) (max_tokens : Nat) (now prompt model : String)
        (t tp pp fp : Option ℚ) (provider : ProviderRun) (s : Chat),
      (Chat.create_completion count max_tokens now prompt model t tp pp fp provider s).chat.history
          = s.history ∨
        ∃ r, (Chat.create_completion count max_tokens now prompt model t tp pp fp provider s).chat.history
          = s.history ++ [r]) := by
  constructor
  · intro count max_tokens reserve sys model
    rfl
  · intro count max_tokens now prompt model t tp pp fp provider s
    obtain ⟨chunks, fails⟩ := provider
    unfold Chat.create_completion
    cases htrim : trimLoop count max_tokens s.reserve_tokens s.system_message model s.context with
    | error e => left; rfl
    | ok ctx' =>
      cases fails with
      | true => left; rfl
      | false => right; exact ⟨_, rfl⟩

/-- C5 counterexample: with an empty context whose system message alone
exceeds the budget (5-token system message, `max_tokens=3`, `reserve=1`),
the trimming step fails — pop from an empty list — instead of being a
no-op, and the whole `create_completion` call errors. -/
theorem trim_empty_failure_C5 :
    trimLoop countLen 3 1 "hello" "gpt-3.5-turbo" [] = .error () ∧
    (Chat.create_completion countLen 3 "now" "hi" "gpt-3.5-turbo" none none none none
        ⟨[], false⟩ { chatW with reserve_tokens := 1, system_message := "hello" }).result
      = .error () :=
  ⟨rfl, rfl⟩

/-- C7 (confirmed): `tokens_used(model)` is the system message's token count
under `model` plus, for each context entry, the token counts of its prompt
and of its response under that entry's own stored model; and
`_Request.length` is wholly independent of the model argument passed in. -/
theorem tokens_used_C7 : ∀ (count : CountFn) (s : Chat) (model : String),
    (Chat.tokens_used count s model =
      count s.system_message model +
        (s.context.map fun r => count r.prompt r.model + count r.response r.model).sum) ∧
    ∀ (r : ChatRequest) (m₁ m₂ : Option String),
      ChatRequest.length count r m₁ = ChatRequest.length count r m₂ :=
  fun count s model => ⟨rfl, fun r m₁ m₂ => rfl⟩

/-- C8 (confirmed): when the trim step succeeds, the outbound message list
is exactly one `system` message carrying the system message, then for each
remaining context entry, in order, two messages carrying that entry's
prompt and its response — both tagged `assistant`, so each prior prompt
carries the same role as its response — then one final `user` message
carrying the new prompt. -/
theorem outbound_messages_C8 (count : CountFn) (max_tokens : Nat) (now prompt model : String)
    (t tp pp fp : Option ℚ) (provider : ProviderRun) (s : Chat) (ctx' : List ChatRequest)
    (htrim : trimLoop count max_tokens s.reserve_tokens s.system_message model s.context = .ok ctx') :
    (Chat.create_completion count max_tokens now prompt model t tp pp fp provider s).sent =
      Msg.mk "system" s.system_message ::
        ((ctx'.flatMap fun r => [Msg.mk "assistant" r.prompt, Msg.mk "assistant" r.response])
          ++ [Msg.mk "user" prompt]) ∧
    ∀ r ∈ ctx',
      (Msg.mk "assistant" r.prompt).role = (Msg.mk "assistant" r.response).role := by
  constructor
  · obtain ⟨chunks, fails⟩ := provider
    unfold Chat.create_completion
    rw [htrim]
    cases fails with
    | true =>
      exact congrArg
        (fun l => Msg.mk "system" s.system_message :: (l ++ [Msg.mk "user" prompt]))
        (generate_messages_eq ctx')
    | false =>
      exact congrArg
        (fun l => Msg.mk "system" s.system_message :: (l ++ [Msg.mk "user" prompt]))
        (generate_messages_eq ctx')
  · intro r hr
    rfl

/-- Witness for C8 at a concrete input: an empty-context chat, for which the
trim hypothesis holds by computation. -/
theorem outbound_messages_C8_witness :
    trimLoop countLen 50 chatW.reserve_tokens chatW.system_message "gpt-3.5-turbo" chatW.context
        = .ok [] ∧
    (Chat.create_completion countLen 50 "now" "hi" "gpt-3.5-turbo" none none none none
        ⟨[], false⟩ chatW).sent
      = [Msg.mk "system" "", Msg.mk "user" "hi"] :=
  ⟨rfl,
    (outbound_messages_C8 countLen 50 "now" "hi" "gpt-3.5-turbo" none none none none
      ⟨[], false⟩ chatW [] rfl).1⟩

/-- C2 (amended): if the provider fails at any point, no request is
recorded — the failure propagates to the caller, the history after the
call is exactly the history before it, and the context after the call is a
suffix of the context before it (the entries the trim step removed before
the provider was invoked stay removed, but nothing is appended), so the
partially streamed text is retained nowhere in the session. -/
theorem provider_failure_C2 :
    ∀ (count : CountFn) (max_tokens : Nat) (now prompt model : String)
      (t tp pp fp : Option ℚ) (chunks : List (Option String)) (s : Chat),
      (Chat.create_completion count max_tokens now prompt model t tp pp fp ⟨chunks, true⟩ s).result
          = .error () ∧
      (Chat.create_completion count max_tokens now prompt model t tp pp fp ⟨chunks, true⟩ s).chat.history
          = s.history ∧
      List.IsSuffix
        (Chat.create_completion count max_tokens now prompt model t tp pp fp ⟨chunks, true⟩ s).chat.context
        s.context := by
  intro count max_tokens now prompt model t tp pp fp chunks s
  unfold Chat.create_completion
  cases htrim : trimLoop count max_tokens s.reserve_tokens s.system_message model s.context with
  | error e => exact ⟨rfl, rfl, List.nil_suffix⟩
  | ok ctx' =>
    exact ⟨rfl, rfl,
      trimLoop_ok_suffix count max_tokens s.reserve_tokens s.system_message model
        s.context ctx' htrim⟩

/-- C2 counterexample: with `max_tokens=30`, reserve 5 and two 20-token
entries in both history and context, the trim step pops one entry and the
provider then fails mid-stream: the context after the call has 1 entry
while it had 2 before the call, so the lengths-and-contents-unchanged claim
fails (the history does stay unchanged). -/
theorem atomicity_counter_C2 :
    (Chat.create_completion countLen 30 "now" "hi" "gpt-3.5-turbo" none none none none
        ⟨[some "par"], true⟩ chat2).chat.context = [r20b] ∧
    chat2.context = [r20a, r20b] ∧
    ([r20b] : List ChatRequest).length ≠ [r20a, r20b].length :=
  ⟨rfl, rfl, by decide⟩

/-- C10 (confirmed): if the provider stream completes successfully having
yielded no content fragment, `create_completion` still appends exactly one
new request — carrying the given prompt and the empty string as its
response — to both the history and the (trimmed) context. -/
theorem empty_stream_C10 (count : CountFn) (max_tokens : Nat) (now prompt model : String)
    (t tp pp fp : Option ℚ) (chunks : List (Option String)) (s : Chat) (ctx' : List ChatRequest)
    (htrim : trimLoop count max_tokens s.reserve_tokens s.system_message model s.context = .ok ctx')
    (hempty : chunks.filterMap id = ([] : List String)) :
    ∃ req : ChatRequest, req.prompt = prompt ∧ req.response = "" ∧
      (Chat.create_completion count max_tokens now prompt model t tp pp fp ⟨chunks, false⟩ s).chat.history
        = s.history ++ [req] ∧
      (Chat.create_completion count max_tokens now prompt model t tp pp fp ⟨chunks, false⟩ s).chat.context
        = ctx' ++ [req] ∧
      (Chat.create_completion count max_tokens now prompt model t tp pp fp ⟨chunks, false⟩ s).result
        = .ok [] := by
  refine ⟨⟨model, prompt, "", now, t, tp, pp, fp⟩, rfl, rfl, ?_, ?_, ?_⟩ <;>
    · unfold Chat.create_completion
      rw [htrim]
      simp only [hempty, if_false]
      rfl

/-- Witness for C10 at a concrete input: an empty-context chat and a
provider run delivering one contentless delta then ending normally. -/
theorem empty_stream_C10_witness :
    trimLoop countLen 50 chatW.reserve_tokens chatW.system_message "gpt-3.5-turbo" chatW.context
        = .ok [] ∧
    ([none] : List (Option String)).filterMap id = ([] : List String) ∧
    ∃ req : ChatRequest, req.prompt = "hi" ∧ req.response = "" ∧
      (Chat.create_completion countLen 50 "now" "hi" "gpt-3.5-turbo" none none none none
        ⟨[none], false⟩ chatW).chat.history
        = chatW.history ++ [req] ∧
      (Chat.create_completion countLen 50 "now" "hi" "gpt-3.5-turbo" none none none none
        ⟨[none], false⟩ chatW).chat.context
        = [] ++ [req] ∧
      (Chat.create_completion countLen 50 "now" "hi" "gpt-3.5-turbo" none none none none
        ⟨[none], false⟩ chatW).result
        = .ok [] :=
  ⟨rfl, rfl,
    empty_stream_C10 countLen 50 "now" "hi" "gpt-3.5-turbo" none none none none
      [none] chatW [] rfl rfl⟩

/-- C6 (amended): `ChatManager.create_completion` contains no
single-in-flight guard: a call never fails (in particular never with
`alreadyGenerating`) and always starts one more generation thread, so a
second call while a generation is in flight leaves two generations in
flight; the single-in-flight discipline is not enforced by the manager. -/
theorem no_inflight_guard_C6 :
    ∀ g : GenState, ∃ g' : GenState,
      ChatManager.create_completion g = .ok g' ∧
      g'.running = g.running ++ [g.next_thread] ∧
      g'.chat_thread = some g.next_thread :=
  fun g => ⟨_, rfl, rfl, rfl⟩

/-- C6 counterexample: from a state with one generation in flight, a second
call to `create_completion` does not fail with `alreadyGenerating`; it
changes the state, and afterwards two generations are in flight. -/
theorem second_generation_counter_C6 :
    ChatManager.create_completion ⟨some 0, [0], 1⟩ = .ok ⟨some 1, [0, 1], 2⟩ ∧
    ChatManager.create_completion ⟨some 0, [0], 1⟩ ≠ .error ManagerError.alreadyGenerating ∧
    (⟨some 1, [0, 1], 2⟩ : GenState) ≠ (⟨some 0, [0], 1⟩ : GenState) ∧
    ([0, 1] : List Nat).length = 2 :=
  ⟨rfl, fun h => Except.noConfusion h, by decide, rfl⟩

theorem save_request_eq (db : DB) (cid : Nat) (req : Request)
    (hfk : db.chats.any (fun c => c.id == cid) = true)
    (hp : req.prompt.isSome) (hr : req.response.isSome) (hts : req.timestamp.isSome) :
    save_request db cid req = some { db with
      requests := db.requests ++
        [⟨db.next_request_id, cid, req.model, req.timestamp.getD "",
          req.temperature, req.top_p, req.presence_penalty, req.frequency_penalty⟩],
      messages := db.messages ++
        [⟨db.next_message_id, db.next_request_id, "user", req.prompt.getD ""⟩,
          ⟨db.next_message_id + 1, db.next_request_id, "assistant", req.response.getD ""⟩],
      next_request_id := db.next_request_id + 1,
      next_message_id := db.next_message_id + 2 } := by
  obtain ⟨p, hp'⟩ := Option.isSome_iff_exists.mp hp
  obtain ⟨r, hr'⟩ := Option.isSome_iff_exists.mp hr
  obtain ⟨ts, hts'⟩ := Option.isSome_iff_exists.mp hts
  unfold save_request
  rw [if_pos hfk, hp', hr', hts']
  rfl

theorem saveAll_eq (h : List Request) : ∀ (db : DB) (cid : Nat),
    db.chats.any (fun c => c.id == cid) = true →
    (∀ r ∈ h, r.prompt.isSome ∧ r.response.isSome ∧ r.timestamp.isSome) →
    saveAll db cid h = some { db with
      requests := db.requests ++ savedRequestRows cid db.next_request_id h,
      messages := db.messages ++ savedMessageRows db.next_request_id db.next_message_id h,
      next_request_id := db.next_request_id + h.length,
      next_message_id := db.next_message_id + 2 * h.length } := by
  induction h with
  | nil =>
    intro db cid hfk hsome
    simp [saveAll, savedRequestRows, savedMessageRows]
  | cons r rest ih =>
    intro db cid hfk hsome
    have hr := hsome r (List.mem_cons_self r rest)
    have hrest := fun x hx => hsome x (List.mem_cons_of_mem r hx)
    have ih' := ih
      { db with
        requests := db.requests ++
          [⟨db.next_request_id, cid, r.model, r.timestamp.getD "",
            r.temperature, r.top_p, r.presence_penalty, r.frequency_penalty⟩],
        messages := db.messages ++
          [⟨db.next_message_id, db.next_request_id, "user", r.prompt.getD ""⟩,
            ⟨db.next_message_id + 1, db.next_request_id, "assistant", r.response.getD ""⟩],
        next_request_id := db.next_request_id + 1,
        next_message_id := db.next_message_id + 2 } cid hfk hrest
    rw [saveAll, save_request_eq db cid r hfk hr.1 hr.2.1 hr.2.2, Option.some_bind, ih']
    simp only [savedRequestRows, savedMessageRows, List.append_assoc, List.length_cons,
      List.cons_append, List.singleton_append, List.nil_append, Option.some.injEq,
      DB.mk.injEq, true_and]
    omega

theorem savedMessageRows_request_id_ge (h : List Request) : ∀ (rid mid : Nat) (m : MessageRow),
    m ∈ savedMessageRows rid mid h → rid ≤ m.request_id := by
  induction h with
  | nil => intro rid mid m hm; simp [savedMessageRows] at hm
  | cons r rest ih =>
    intro rid mid m hm
    simp only [savedMessageRows, List.mem_cons] at hm
    rcases hm with rfl | rfl | hm
    · exact Nat.le_refl rid
    · exact Nat.le_refl rid
    · exact Nat.le_of_succ_le (ih (rid + 1) (mid + 2) m hm)

theorem savedMessageRows_filter_small (h : List Request) : ∀ (rid mid q : Nat) (role_ : String),
    q < rid →
    (savedMessageRows rid mid h).filter (fun m => m.role == role_ && m.request_id == q) = [] := by
  induction h with
  | nil => intro rid mid q role_ hq; rfl
  | cons r rest ih =>
    intro rid mid q role_ hq
    have h1 : (rid == q) = false := beq_eq_false_iff_ne.mpr (Nat.ne_of_gt hq)
    simp only [savedMessageRows, List.filter_cons, h1, Bool.and_false, Bool.false_eq_true,
      if_false]
    exact ih (rid + 1) (mid + 2) q role_ (Nat.lt_succ_of_lt hq)

theorem savedMessageRows_filter_user (h : List Request) : ∀ (rid mid j : Nat) (r : Request),
    h[j]? = some r →
    ((savedMessageRows rid mid h).filter
        (fun m => m.role == "user" && m.request_id == rid + j)).map (fun m => m.content)
      = [r.prompt.getD ""] := by
  induction h with
  | nil => intro rid mid j r hj; simp at hj
  | cons rr rest ih =>
    intro rid mid j r hj
    match j with
    | 0 =>
      rw [List.getElem?_cons_zero, Option.some.injEq] at hj
      subst hj
      have h2 : (("assistant" : String) == "user") = false := by decide
      have h3 : (("user" : String) == "user") = true := by decide
      simp [savedMessageRows, List.filter_cons, h2, h3]
      intro a ha _
      have := savedMessageRows_request_id_ge rest (rid + 1) (mid + 2) a ha
      omega
    | j' + 1 =>
      rw [List.getElem?_cons_succ] at hj
      have h1 : (rid == rid + (j' + 1)) = false := beq_eq_false_iff_ne.mpr (by omega)
      have ih' := ih (rid + 1) (mid + 2) j' r hj
      simp only [show rid + 1 + j' = rid + (j' + 1) from by omega] at ih'
      simp only [savedMessageRows, List.filter_cons, h1, Bool.and_false, Bool.false_eq_true,
        if_false]
      exact ih'

theorem savedMessageRows_filter_assistant (h : List Request) : ∀ (rid mid j : Nat) (r : Request),
    h[j]? = some r →
    ((savedMessageRows rid mid h).filter
        (fun m => m.role == "assistant" && m.request_id == rid + j)).map (fun m => m.content)
      = [r.response.getD ""] := by
  induction h with
  | nil => intro rid mid j r hj; simp at hj
  | cons rr rest ih =>
    intro rid mid j r hj
    match j with
    | 0 =>
      rw [List.getElem?_cons_zero, Option.some.injEq] at hj
      subst hj
      have h2 : (("user" : String) == "assistant") = false := by decide
      have h3 : (("assistant" : String) == "assistant") = true := by decide
      simp [savedMessageRows, List.filter_cons, h2, h3]
      intro a ha _
      have := savedMessageRows_request_id_ge rest (rid + 1) (mid + 2) a ha
      omega
    | j' + 1 =>
      rw [List.getElem?_cons_succ] at hj
      have h1 : (rid == rid + (j' + 1)) = false := beq_eq_false_iff_ne.mpr (by omega)
      have ih' := ih (rid + 1) (mid + 2) j' r hj
      simp only [show rid + 1 + j' = rid + (j' + 1) from by omega] at ih'
      simp only [savedMessageRows, List.filter_cons, h1, Bool.and_false, Bool.false_eq_true,
        if_false]
      exact ih'

theorem savedRequestRows_filter_self (h : List Request) : ∀ (cid rid : Nat),
    (savedRequestRows cid rid h).filter (fun rr => rr.chat_id == cid)
      = savedRequestRows cid rid h := by
  induction h with
  | nil => intro cid rid; rfl
  | cons r rest ih =>
    intro cid rid
    simp only [savedRequestRows, List.filter_cons]
    simp [ih cid (rid + 1)]

theorem flatMap_map_some {α β : Type} (l : List α) (g : Option α → List β) :
    (l.map some).flatMap g = l.flatMap (fun x => g (some x)) := by
  induction l with
  | nil => rfl
  | cons x xs ih => simp only [List.map_cons, List.flatMap_cons, ih]

theorem flatMap_savedRequestRows (h : List Request) : ∀ (c : ChatRow) (cid rid : Nat)
    (M : List MessageRow),
    (∀ (j : Nat) (r : Request), h[j]? = some r →
      ((M.filter fun m => m.role == "user" && m.request_id == rid + j).map fun m => m.content)
        = [r.prompt.getD ""]) →
    (∀ (j : Nat) (r : Request), h[j]? = some r →
      ((M.filter fun m => m.role == "assistant" && m.request_id == rid + j).map fun m => m.content)
        = [r.response.getD ""]) →
    ((savedRequestRows cid rid h).flatMap fun r =>
        (ljoinRows ((M.filter fun m =>
            m.role == "user" && m.request_id == r.id).map fun m => m.content)).flatMap fun p? =>
          (ljoinRows ((M.filter fun m =>
              m.role == "assistant" && m.request_id == r.id).map fun m => m.content)).map fun q? =>
            (c, some r, p?, q?))
      = savedJoinRows c cid rid h := by
  induction h with
  | nil => intro c cid rid M hu ha; rfl
  | cons r rest ih =>
    intro c cid rid M hu ha
    have hu0 := hu 0 r (by simp)
    have ha0 := ha 0 r (by simp)
    rw [Nat.add_zero] at hu0 ha0
    have hu' : ∀ (j : Nat) (r' : Request), rest[j]? = some r' →
        ((M.filter fun m => m.role == "user" && m.request_id == rid + 1 + j).map
          fun m => m.content) = [r'.prompt.getD ""] := by
      intro j r' hj
      have h' := hu (j + 1) r' (by rw [List.getElem?_cons_succ]; exact hj)
      simpa [show rid + (j + 1) = rid + 1 + j from by omega] using h'
    have ha' : ∀ (j : Nat) (r' : Request), rest[j]? = some r' →
        ((M.filter fun m => m.role == "assistant" && m.request_id == rid + 1 + j).map
          fun m => m.content) = [r'.response.getD ""] := by
      intro j r' hj
      have h' := ha (j + 1) r' (by rw [List.getElem?_cons_succ]; exact hj)
      simpa [show rid + (j + 1) = rid + 1 + j from by omega] using h'
    simp only [savedRequestRows, List.flatMap_cons, savedJoinRows,
      ih c cid (rid + 1) M hu' ha']
    simp [hu0, ha0, ljoinRows]

theorem joinedRows_saved (c : ChatRow) (h : List Request) (n₁ n₂ n₃ : Nat) :
    joinedRows ⟨[c], savedRequestRows c.id 1 h, savedMessageRows 1 1 h, n₁, n₂, n₃⟩
      = match h with
        | [] => [(c, none, none, none)]
        | _ :: _ => savedJoinRows c c.id 1 h := by
  cases h with
  | nil => rfl
  | cons r t =>
    have hfilter := savedRequestRows_filter_self (r :: t) c.id 1
    simp only [joinedRows, List.flatMap_cons, List.flatMap_nil, List.append_nil, hfilter]
    rw [show ljoinRows (savedRequestRows c.id 1 (r :: t))
        = (savedRequestRows c.id 1 (r :: t)).map some from by
      simp only [savedRequestRows]; rfl]
    rw [flatMap_map_some]
    exact flatMap_savedRequestRows (r :: t) c c.id 1 (savedMessageRows 1 1 (r :: t))
      (fun j r' hj => savedMessageRows_filter_user (r :: t) 1 1 j r' hj)
      (fun j r' hj => savedMessageRows_filter_assistant (r :: t) 1 1 j r' hj)

theorem map_savedJoinRows (h : List Request) : ∀ (c : ChatRow) (cid rid : Nat),
    (∀ r ∈ h, r.prompt.isSome ∧ r.response.isSome ∧ r.timestamp.isSome) →
    (savedJoinRows c cid rid h).map
      (fun row =>
        (⟨row.1.id, row.1.title, row.1.system_message, row.1.date_started,
          (row.2.1).map (fun r => r.model), row.2.2.1, row.2.2.2,
          (row.2.1).map (fun r => r.timestamp),
          (row.2.1).bind (fun r => r.temperature),
          (row.2.1).bind (fun r => r.top_p),
          (row.2.1).bind (fun r => r.presence_penalty),
          (row.2.1).bind (fun r => r.frequency_penalty)⟩ : HistRow))
      = histRowsOf c h := by
  induction h with
  | nil => intro c cid rid hsome; rfl
  | cons r t ih =>
    intro c cid rid hsome
    obtain ⟨hp, hr, hts⟩ := hsome r (List.mem_cons_self r t)
    obtain ⟨p, hp'⟩ := Option.isSome_iff_exists.mp hp
    obtain ⟨q, hr'⟩ := Option.isSome_iff_exists.mp hr
    obtain ⟨ts, hts'⟩ := Option.isSome_iff_exists.mp hts
    have iht := ih c cid (rid + 1) (fun x hx => hsome x (List.mem_cons_of_mem r hx))
    simp only [savedJoinRows, histRowsOf, List.map_cons] at iht ⊢
    rw [iht]
    simp [hp', hr', hts']

theorem fetch_saved_db (c : ChatRow) (h : List Request) (n₁ n₂ n₃ : Nat)
    (hsome : ∀ r ∈ h, r.prompt.isSome ∧ r.response.isSome ∧ r.timestamp.isSome) :
    fetch_full_history ⟨[c], savedRequestRows c.id 1 h, savedMessageRows 1 1 h, n₁, n₂, n₃⟩
      = match h with
        | [] => [nullRowOf c]
        | _ :: _ => histRowsOf c h := by
  cases h with
  | nil => rfl
  | cons r t =>
    unfold fetch_full_history
    rw [joinedRows_saved c (r :: t) n₁ n₂ n₃]
    exact map_savedJoinRows (r :: t) c c.id 1 hsome

theorem rebuildStep_existing (c : ChatRow) (d : ChatData) (r : Request) :
    rebuildStep [(c.id, d)]
      (⟨c.id, c.title, c.system_message, c.date_started, some r.model, r.prompt, r.response,
        r.timestamp, r.temperature, r.top_p, r.presence_penalty, r.frequency_penalty⟩ : HistRow)
      = [(c.id, { d with history := d.history ++ [r] })] := by
  unfold rebuildStep
  simp

theorem rebuild_aux (t : List Request) : ∀ (c : ChatRow) (d : ChatData),
    List.foldl rebuildStep [(c.id, d)] (histRowsOf c t)
      = [(c.id, { d with history := d.history ++ t })] := by
  induction t with
  | nil => intro c d; simp [histRowsOf]
  | cons r t' ih =>
    intro c d
    simp only [histRowsOf, List.map_cons, List.foldl_cons]
    rw [rebuildStep_existing c d r]
    have iht := ih c { d with history := d.history ++ [r] }
    simp only [histRowsOf] at iht
    rw [iht]
    simp

theorem rebuild_hist (c : ChatRow) (h : List Request) :
    rebuild_chats (match h with | [] => [nullRowOf c] | _ :: _ => histRowsOf c h)
      = [(c.id, ⟨c.title, c.system_message, c.date_started, h⟩)] := by
  cases h with
  | nil => rfl
  | cons r t =>
    unfold rebuild_chats
    simp only [histRowsOf, List.map_cons, List.foldl_cons]
    have h1 : rebuildStep []
        (⟨c.id, c.title, c.system_message, c.date_started, some r.model, r.prompt, r.response,
          r.timestamp, r.temperature, r.top_p, r.presence_penalty, r.frequency_penalty⟩ : HistRow)
        = [(c.id, ⟨c.title, c.system_message, c.date_started, [r]⟩)] := by
      unfold rebuildStep
      simp
    rw [h1]
    have iht := rebuild_aux t c ⟨c.title, c.system_message, c.date_started, [r]⟩
    simp only [histRowsOf] at iht
    rw [iht]
    simp

theorem rebuild_fetch_saved (c : ChatRow) (h : List Request) (n₁ n₂ n₃ : Nat)
    (hsome : ∀ r ∈ h, r.prompt.isSome ∧ r.response.isSome ∧ r.timestamp.isSome) :
    rebuild_chats (fetch_full_history
        ⟨[c], savedRequestRows c.id 1 h, savedMessageRows 1 1 h, n₁, n₂, n₃⟩)
      = [(c.id, ⟨c.title, c.system_message, c.date_started, h⟩)] := by
  cases h with
  | nil =>
    rw [fetch_saved_db c [] n₁ n₂ n₃ hsome]
    exact rebuild_hist c []
  | cons r t =>
    rw [fetch_saved_db c (r :: t) n₁ n₂ n₃ hsome]
    exact rebuild_hist c (r :: t)

/-- C3 (confirmed): persisting a session — one `save_chat` followed by one
`save_request` per history entry, in order — and then reconstructing it from
the full-history query output via the reconstruction algorithm yields a
history carrying the same ordered sequence of `(model, prompt, response)`
triples as the original session's history (indeed the identical entries:
every field round-trips). -/
theorem round_trip_C3 (sess : ChatData)
    (hsome : ∀ r ∈ sess.history, r.prompt.isSome ∧ r.response.isSome ∧ r.timestamp.isSome) :
    ∃ (db' : DB) (data : ChatData),
      saveAll (save_chat emptyDB sess).1 (save_chat emptyDB sess).2 sess.history = some db' ∧
      rebuild_chats (fetch_full_history db') = [((save_chat emptyDB sess).2, data)] ∧
      data.title = sess.title ∧
      data.system_message = sess.system_message ∧
      data.date_started = sess.date_started ∧
      data.history.map (fun r => (r.model, r.prompt, r.response))
        = sess.history.map (fun r => (r.model, r.prompt, r.response)) := by
  have hfk : ((save_chat emptyDB sess).1).chats.any
      (fun c => c.id == (save_chat emptyDB sess).2) = true := rfl
  have hsave := saveAll_eq sess.history (save_chat emptyDB sess).1 (save_chat emptyDB sess).2
    hfk hsome
  refine ⟨_, ⟨sess.title, sess.system_message, sess.date_started, sess.history⟩, hsave,
    ?_, rfl, rfl, rfl, rfl⟩
  exact rebuild_fetch_saved ⟨1, sess.title, sess.system_message, sess.date_started⟩
    sess.history 2 (1 + sess.history.length) (1 + 2 * sess.history.length) hsome

/-- Witness for C3 at a concrete input: the one-turn session `sessW`, all of
whose entries carry a prompt, a response and a timestamp. -/
theorem round_trip_C3_witness :
    (∀ r ∈ sessW.history, r.prompt.isSome ∧ r.response.isSome ∧ r.timestamp.isSome) ∧
    ∃ (db' : DB) (data : ChatData),
      saveAll (save_chat emptyDB sessW).1 (save_chat emptyDB sessW).2 sessW.history = some db' ∧
      rebuild_chats (fetch_full_history db') = [((save_chat emptyDB sessW).2, data)] ∧
      data.title = sessW.title ∧
      data.system_message = sessW.system_message ∧
      data.date_started = sessW.date_started ∧
      data.history.map (fun r => (r.model, r.prompt, r.response))
        = sessW.history.map (fun r => (r.model, r.prompt, r.response)) :=
  ⟨by decide, round_trip_C3 sessW (by decide)⟩

/-- C9 (confirmed): a persisted chat with zero requests produces exactly one
full-history row, with every `Request`-derived field NULL, and the
reconstruction algorithm skips that null-model row: the chat reconstructs
to a session with an empty history and no phantom request. -/
theorem empty_chat_C9 (title sys date : String) :
    fetch_full_history (save_chat emptyDB ⟨title, sys, date, []⟩).1
      = [⟨1, title, sys, date, none, none, none, none, none, none, none, none⟩] ∧
    rebuild_chats (fetch_full_history (save_chat emptyDB ⟨title, sys, date, []⟩).1)
      = [(1, ⟨title, sys, date, []⟩)] :=
  ⟨rfl, rfl⟩

theorem on_finish_first_eq (now : String) (s : ManagerState) (tok : Nat) (data : ChatData)
    (req : Request)
    (hactive : s.active = some tok)
    (hunsaved : s.unsaved = some tok)
    (hsess : lookupSession s.sessions tok = some data)
    (hlast : data.history.getLast? = some req)
    (hp : req.prompt.isSome) (hr : req.response.isSome) (hts : req.timestamp.isSome) :
    on_streaming_finish now s = some
      { s with
        chats := dictInsert s.chats (save_chat s.db data).2 tok,
        unsaved := none,
        db := { (save_chat s.db data).1 with
          requests := ((save_chat s.db data).1).requests ++
            [⟨((save_chat s.db data).1).next_request_id, (save_chat s.db data).2, req.model,
              req.timestamp.getD "", req.temperature, req.top_p, req.presence_penalty,
              req.frequency_penalty⟩],
          messages := ((save_chat s.db data).1).messages ++
            [⟨((save_chat s.db data).1).next_message_id, ((save_chat s.db data).1).next_request_id,
              "user", req.prompt.getD ""⟩,
              ⟨((save_chat s.db data).1).next_message_id + 1,
                ((save_chat s.db data).1).next_request_id, "assistant", req.response.getD ""⟩],
          next_request_id := ((save_chat s.db data).1).next_request_id + 1,
          next_message_id := ((save_chat s.db data).1).next_message_id + 2 } } := by
  have hac : activeChat now s = (s, tok) := by unfold activeChat; rw [hactive]
  have hfk2 : ((save_chat s.db data).1).chats.any
      (fun c => c.id == (save_chat s.db data).2) = true := by
    simp [save_chat, List.any_append]
  unfold on_streaming_finish
  simp only [hac, hsess, hunsaved, beq_self_eq_true, if_true, hlast, Option.some_bind]
  rw [save_request_eq _ _ _ hfk2 hp hr hts]
  rfl

theorem on_finish_else_eq (now : String) (s : ManagerState) (tok : Nat) (data : ChatData)
    (req : Request) (cid : Nat)
    (hactive : s.active = some tok)
    (hunsaved : (s.unsaved == some tok) = false)
    (hsess : lookupSession s.sessions tok = some data)
    (hgid : get_chat_id s.chats tok = some cid)
    (hfk : s.db.chats.any (fun c => c.id == cid) = true)
    (hlast : data.history.getLast? = some req)
    (hp : req.prompt.isSome) (hr : req.response.isSome) (hts : req.timestamp.isSome) :
    on_streaming_finish now s = some
      { s with
        db := { s.db with
          requests := s.db.requests ++
            [⟨s.db.next_request_id, cid, req.model, req.timestamp.getD "",
              req.temperature, req.top_p, req.presence_penalty, req.frequency_penalty⟩],
          messages := s.db.messages ++
            [⟨s.db.next_message_id, s.db.next_request_id, "user", req.prompt.getD ""⟩,
              ⟨s.db.next_message_id + 1, s.db.next_request_id, "assistant",
                req.response.getD ""⟩],
          next_request_id := s.db.next_request_id + 1,
          next_message_id := s.db.next_message_id + 2 } } := by
  have hac : activeChat now s = (s, tok) := by unfold activeChat; rw [hactive]
  unfold on_streaming_finish
  simp only [hac, hsess, hunsaved, Bool.false_eq_true, if_false, hgid, Option.map_some,
    Option.map_some', Option.some_bind, hlast]
  rw [save_request_eq _ _ _ hfk hp hr hts]
  rfl

theorem dictInsert_fresh (m : List (Nat × Nat)) (k v : Nat) (hk : ∀ p ∈ m, p.1 ≠ k) :
    dictInsert m k v = m ++ [(k, v)] := by
  unfold dictInsert
  have hany : m.any (fun p => p.1 == k) = false := by
    rw [List.any_eq_false]
    intro p hp
    simp only [beq_iff_eq]
    exact hk p hp
  rw [hany]
  simp

theorem get_chat_id_append_fresh (m : List (Nat × Nat)) (k v : Nat) (hv : ∀ p ∈ m, p.2 ≠ v) :
    get_chat_id (m ++ [(k, v)]) v = some k := by
  unfold get_chat_id
  rw [List.find?_append]
  have h1 : m.find? (fun p => p.2 == v) = none := by
    rw [List.find?_eq_none]
    intro p hp
    simp only [beq_iff_eq]
    exact hv p hp
  rw [h1]
  simp

/-- C4 (confirmed): on an unsaved active session, the first successfully
completed generation inserts exactly one `Chat` row (plus one `Request` and
two `Message` rows), registers the session in the chat map under the
returned id and clears the unsaved marker; and from any state whose active
session is registered and is not the unsaved one — as holds from then on —
a successfully completed generation inserts only one `Request` row and two
`Message` rows, leaves the `Chat` table and the chat map untouched, and
never inserts a second `Chat` row. -/
theorem single_chat_row_C4 (now : String) (s : ManagerState) (tok : Nat) (data : ChatData)
    (req : Request)
    (hactive : s.active = some tok)
    (hunsaved : s.unsaved = some tok)
    (hsess : lookupSession s.sessions tok = some data)
    (hlast : data.history.getLast? = some req)
    (hp : req.prompt.isSome) (hr : req.response.isSome) (hts : req.timestamp.isSome)
    (hnotin : ∀ p ∈ s.chats, p.2 ≠ tok)
    (hkey : ∀ p ∈ s.chats, p.1 ≠ s.db.next_chat_id) :
    (∃ s₁, on_streaming_finish now s = some s₁ ∧
      s₁.db.chats.length = s.db.chats.length + 1 ∧
      s₁.db.requests.length = s.db.requests.length + 1 ∧
      s₁.db.messages.length = s.db.messages.length + 2 ∧
      s₁.chats = s.chats ++ [(s.db.next_chat_id, tok)] ∧
      (s.db.next_chat_id, tok) ∈ s₁.chats ∧
      s₁.unsaved = none ∧
      s₁.active = some tok ∧
      s₁.sessions = s.sessions ∧
      get_chat_id s₁.chats tok = some s.db.next_chat_id ∧
      s₁.db.chats.any (fun c => c.id == s.db.next_chat_id) = true) ∧
    (∀ (now' : String) (s' : ManagerState) (tok' cid : Nat) (data' : ChatData) (req' : Request),
      s'.active = some tok' →
      s'.unsaved ≠ some tok' →
      lookupSession s'.sessions tok' = some data' →
      get_chat_id s'.chats tok' = some cid →
      s'.db.chats.any (fun c => c.id == cid) = true →
      data'.history.getLast? = some req' →
      req'.prompt.isSome → req'.response.isSome → req'.timestamp.isSome →
      ∃ s₂, on_streaming_finish now' s' = some s₂ ∧
        s₂.db.chats = s'.db.chats ∧
        s₂.db.requests.length = s'.db.requests.length + 1 ∧
        s₂.db.messages.length = s'.db.messages.length + 2 ∧
        s₂.chats = s'.chats ∧
        s₂.unsaved = s'.unsaved ∧
        s₂.active = s'.active ∧
        s₂.sessions = s'.sessions) := by
  constructor
  · have hchats : dictInsert s.chats (save_chat s.db data).2 tok
        = s.chats ++ [(s.db.next_chat_id, tok)] :=
      dictInsert_fresh s.chats s.db.next_chat_id tok hkey
    refine ⟨_, on_finish_first_eq now s tok data req hactive hunsaved hsess hlast hp hr hts,
      ?_, ?_, ?_, ?_, ?_, ?_, ?_, ?_, ?_, ?_⟩
    · simp [save_chat]
    · simp [save_chat]
    · simp [save_chat]
    · exact hchats
    · rw [hchats]; exact List.mem_append_right _ (List.mem_singleton.mpr rfl)
    · rfl
    · exact hactive
    · rfl
    · rw [hchats]; exact get_chat_id_append_fresh s.chats s.db.next_chat_id tok hnotin
    · simp [save_chat, List.any_append]
  · intro now' s' tok' cid data' req' hactive' hunsaved' hsess' hgid' hfk' hlast' hp' hr' hts'
    refine ⟨_, on_finish_else_eq now' s' tok' data' req' cid hactive'
      (beq_eq_false_iff_ne.mpr hunsaved') hsess' hgid' hfk' hlast' hp' hr' hts',
      rfl, ?_, ?_, rfl, rfl, rfl, rfl⟩
    · simp
    · simp

/-- Witness for C4 at a concrete input: the unsaved one-turn session `sessW`
held by `mgrW` under token 7, over an empty database. -/
theorem single_chat_row_C4_witness :
    mgrW.active = some 7 ∧ mgrW.unsaved = some 7 ∧
    lookupSession mgrW.sessions 7 = some sessW ∧
    sessW.history.getLast? = some reqW ∧
    (∃ s₁, on_streaming_finish "t0" mgrW = some s₁ ∧
      s₁.db.chats.length = mgrW.db.chats.length + 1 ∧
      s₁.db.requests.length = mgrW.db.requests.length + 1 ∧
      s₁.db.messages.length = mgrW.db.messages.length + 2 ∧
      s₁.chats = mgrW.chats ++ [(mgrW.db.next_chat_id, 7)] ∧
      (mgrW.db.next_chat_id, 7) ∈ s₁.chats ∧
      s₁.unsaved = none ∧
      s₁.active = some 7 ∧
      s₁.sessions = mgrW.sessions ∧
      get_chat_id s₁.chats 7 = some mgrW.db.next_chat_id ∧
      s₁.db.chats.any (fun c => c.id == mgrW.db.next_chat_id) = true) :=
  ⟨rfl, rfl, rfl, rfl,
    (single_chat_row_C4 "t0" mgrW 7 sessW reqW rfl rfl rfl rfl rfl rfl rfl
      (by simp [mgrW]) (by simp [mgrW])).1⟩
